import Mathlib

/-!
Shallow embedding of the bridge-transaction orchestrator of the
`manus_bridge_bot` repository (Python), covering:

- `src/bridge_logic/bridge_aggregator.py` (`BridgeAggregator`):
  `select_random_service`, `generate_random_transaction_times`,
  `select_random_transaction`, `execute_random_bridge`;
- `src/bridge_logic/jumper_bridge.py` (`JumperBridgeService.execute_bridge`);
- `src/bridge_logic/stargate_bridge.py` (`StargateBridgeService.execute_bridge`,
  `STARGATE_CHAINS`, `STARGATE_POOLS`);
- `src/bridge_logic/relay_bridge.py` (`RelayBridgeService.execute_bridge`,
  `notify_transaction`).

Modelling conventions:

- Python dicts are association lists (`List (key × value)`) in insertion
  order; `d[k]` / `k in d` are `List.lookup`.
- Python floats (token balances, amounts) are modelled as exact rationals.
- External calls (HTTP quote endpoints, the wallet-signing service, web3
  contract calls) are modelled by an environment record that fixes the
  response of each call; a `none` response models the Python call returning
  a falsy value (`None`, `""`) or raising inside the adapter's `try` block.
- Each provider-adapter run returns the Python return value
  (`Option result`, `none` for every `return None` / caught exception)
  together with the ordered trace of wallet-signing-port and
  provider-notification calls it performed.
- `random.choice(l)` / `random.randint(a, b)` are modelled by threading an
  arbitrary natural number `k` and picking index `k % l.length`
  (resp. value `a + k % (b - a + 1)`), which ranges over exactly the same
  outcomes.
- Timestamps are microseconds since local midnight of the generation day
  (`datetime.now()` carries microseconds; the drawn times have
  microsecond 0).
-/

/-! ## Python integer parsing

`int(s, 16)` and `int(s)` as used by the adapters on provider-supplied
amount and value strings.  Modelled for an optional sign, an optional
`0x`/`0X` prefix (base 16 only) and a nonempty digit run; Python's
surrounding-whitespace and underscore-grouping tolerance is not modelled.
-/

/-- Value of one hexadecimal digit, `none` for a non-digit. -/
def hexDigitVal (c : Char) : Option Nat :=
  if c.isDigit then some (c.toNat - 48)
  else if 'a' ≤ c && c ≤ 'f' then some (c.toNat - 87)
  else if 'A' ≤ c && c ≤ 'F' then some (c.toNat - 55)
  else none

/-- Value of one decimal digit, `none` for a non-digit. -/
def decDigitVal (c : Char) : Option Nat :=
  if c.isDigit then some (c.toNat - 48) else none

/-- Big-endian value of a nonempty digit run; `none` on an empty run or a
bad digit (Python `ValueError`). -/
def digitsVal (base : Nat) (dv : Char → Option Nat) (cs : List Char) : Option Nat :=
  if cs.isEmpty then none
  else cs.foldlM (fun a c => (dv c).map (fun d => base * a + d)) 0

/-- Leading `-` / `+` sign of a Python integer literal. -/
def stripSign : List Char → Int × List Char
  | '-' :: cs => (-1, cs)
  | '+' :: cs => (1, cs)
  | cs => (1, cs)

/-- Python `int(s, 16)`: optional sign, optional `0x`/`0X` prefix,
big-endian base-16 digits. -/
def pyIntBase16 (s : String) : Option Int :=
  let sc := stripSign s.data
  let cs := match sc.2 with
    | '0' :: 'x' :: rest => rest
    | '0' :: 'X' :: rest => rest
    | cs => cs
  (digitsVal 16 hexDigitVal cs).map (fun n => sc.1 * n)

/-- Python `int(s)`: optional sign, big-endian base-10 digits. -/
def pyIntBase10 (s : String) : Option Int :=
  let sc := stripSign s.data
  (digitsVal 10 decDigitVal sc.2).map (fun n => sc.1 * n)

/-- The adapters' shared value decoding:
`int(v, 16) if isinstance(v, str) and v.startswith("0x") else int(v)`. -/
def parseTxValue (v : String) : Option Int :=
  match v.data with
  | '0' :: 'x' :: _ => pyIntBase16 v
  | _ => pyIntBase10 v

/-! ## Randomness -/

/-- Python `random.choice(l)` driven by an arbitrary draw `k`: index `k % l.length`.
The default `d` is only reachable on an empty list (where Python raises);
every call site in the source is guarded by a nonemptiness check. -/
def chooseD (k : Nat) (l : List α) (d : α) : α :=
  l.getD (k % l.length) d

/-! ## Data model: token balances as seen by `select_random_transaction` -/

/-- One entry of `available_tokens[chain]`: the dict
`{"address": ..., "balance": ...}` built in `execute_random_bridge`. -/
structure TokenInfo where
  address : String
  balance : ℚ
deriving DecidableEq

/-- The dict `available_tokens`: chain → token symbol → token info, in dict order. -/
abbrev TokenMap := List (String × List (String × TokenInfo))

/-- Distinct failure exits of `select_random_transaction`.  Python returns
`None` at each of them; the tag records which `logger.error` site fired. -/
inductive SelectError where
  | noEligibleChain
  | noTokens
  | insufficientBalance
  | noDestination
deriving DecidableEq

/-- A successful selection `(from_chain, to_chain, token_symbol,
token_address, amount)`. -/
abbrev Selection := String × String × String × String × ℚ

/-- The chains surviving the filter at the top of
`select_random_transaction`: `chain in available_tokens and
available_tokens[chain]` (the token dict exists and is nonempty; balances
are not consulted). -/
def validChains (available_chains : List String) (available_tokens : TokenMap) :
    List String :=
  available_chains.filter (fun c =>
    match List.lookup c available_tokens with
    | some l => !l.isEmpty
    | none => false)

/-- Embeds `BridgeAggregator.select_random_transaction`.  Random draws: `kChain`
(source chain), `kToken` (token), `kDest` (destination chain), `kPct`
(`random.randint(10, 90)` percentage, modelled as `10 + kPct % 81`). -/
def select_random_transaction (_wallet_address : String)
    (available_chains : List String) (available_tokens : TokenMap)
    (kChain kToken kDest kPct : Nat) : Except SelectError Selection :=
  let valid_chains := validChains available_chains available_tokens
  if valid_chains.isEmpty then .error .noEligibleChain
  else
    let from_chain := chooseD kChain valid_chains ""
    let available_tokens_on_chain := (List.lookup from_chain available_tokens).getD []
    if available_tokens_on_chain.isEmpty then .error .noTokens
    else
      let token_symbol := chooseD kToken (available_tokens_on_chain.map Prod.fst) ""
      let info := (List.lookup token_symbol available_tokens_on_chain).getD ⟨"", 0⟩
      let token_address := info.address
      let token_balance := info.balance
      if token_balance ≤ 0 then .error .insufficientBalance
      else
        let other_chains := valid_chains.filter (fun c => c != from_chain)
        if other_chains.isEmpty then .error .noDestination
        else
          let to_chain := chooseD kDest other_chains ""
          let percentage : Nat := 10 + kPct % 81
          let amount : ℚ := token_balance * (percentage : ℚ) / 100
          .ok (from_chain, to_chain, token_symbol, token_address, amount)

/-! ## Stargate static route tables (`stargate_bridge.py`) -/

/-- Table `STARGATE_CHAINS`: chain name → (Stargate chain id, router address). -/
def STARGATE_CHAINS : List (String × Nat × String) :=
  [("ethereum", 1, "0x8731d54E9D02c286767d56ac03e8037C07e01e98"),
   ("bsc", 2, "0x4a364f8c717cAAD9A442737Eb7b8A55cc6cf18D8"),
   ("avalanche", 6, "0x45A01E4e04F14f7A4a6702c74187c5F6222033cd"),
   ("polygon", 9, "0x45A01E4e04F14f7A4a6702c74187c5F6222033cd"),
   ("arbitrum", 10, "0x53Bf833A5d6c4ddA888F69c22C88C9f356a41614"),
   ("optimism", 11, "0xB0D502E938ed5f4df2E681fE6E419ff29631d62b"),
   ("base", 30, "0x45f5b7eDBCB52D6BF06C80395498097B6A8e9251")]

/-- Table `STARGATE_POOLS`: token symbol → chain name → pool id. -/
def STARGATE_POOLS : List (String × List (String × Nat)) :=
  [("USDC", [("ethereum", 1), ("bsc", 1), ("avalanche", 1), ("polygon", 1),
             ("arbitrum", 1), ("optimism", 1), ("base", 1)]),
   ("USDT", [("ethereum", 2), ("bsc", 2), ("avalanche", 2), ("polygon", 2),
             ("arbitrum", 2), ("optimism", 2), ("base", 2)]),
   ("ETH", [("ethereum", 13), ("bsc", 0), ("avalanche", 0), ("polygon", 0),
            ("arbitrum", 13), ("optimism", 13), ("base", 13)])]

/-- The Stargate compatibility test of `select_random_service`:
both chains are Stargate chains, the token has a pool table, and both
chains appear in it (key membership only; a pool id of 0 still counts). -/
def stargateRouteOk (from_chain to_chain token_symbol : String) : Bool :=
  (List.lookup from_chain STARGATE_CHAINS).isSome &&
  (List.lookup to_chain STARGATE_CHAINS).isSome &&
  (match List.lookup token_symbol STARGATE_POOLS with
   | some pools =>
       (List.lookup from_chain pools).isSome && (List.lookup to_chain pools).isSome
   | none => false)

/-- The `supported_services` list built by `select_random_service`:
`jumper` unconditionally, then `stargate` if the route test passes, then
`relay` unconditionally. -/
def supported_services (from_chain to_chain token_symbol : String) : List String :=
  ["jumper"] ++
  (if stargateRouteOk from_chain to_chain token_symbol then ["stargate"] else []) ++
  ["relay"]

/-- Embeds `BridgeAggregator.select_random_service`, with the `random.choice`
draw `k` made explicit. -/
def select_random_service (from_chain to_chain token_symbol : String)
    (k : Nat) : String :=
  chooseD k (supported_services from_chain to_chain token_symbol) ""

/-! ## Randomized daily schedule (`generate_random_transaction_times`) -/

/-- Microseconds in one day. -/
def dayUs : Nat := 86400000000

/-- Microseconds in one hour. -/
def hourUs : Nat := 3600000000

/-- Microseconds in one minute. -/
def minuteUs : Nat := 60000000

/-- The clock time (microseconds after midnight) of one drawn timestamp:
`random.randint(8, 22)` hours, `random.randint(0, 59)` minutes and
seconds, microsecond 0. -/
def drawClockUs (d : Nat × Nat × Nat) : Nat :=
  ((8 + d.1 % 15) * 3600 + (d.2.1 % 60) * 60 + d.2.2 % 60) * 1000000

/-- One loop iteration of `generate_random_transaction_times`: place the
drawn clock time today, and push it to the same clock time tomorrow when it
is already in the past (`if tx_time < now`). `nowUs` is `datetime.now()`
as microseconds after today's midnight. -/
def scheduleTimeUs (nowUs : Nat) (d : Nat × Nat × Nat) : Nat :=
  let t := drawClockUs d
  if t < nowUs then t + dayUs else t

/-- Embeds `BridgeAggregator.generate_random_transaction_times`: one timestamp per
random draw, then an ascending (stable) sort, exactly as
`transaction_times.sort()`. -/
def generate_random_transaction_times (nowUs : Nat)
    (draws : List (Nat × Nat × Nat)) : List Nat :=
  List.insertionSort (· ≤ ·) (draws.map (scheduleTimeUs nowUs))

/-! ## Wallet-signing-port call traces -/

/-- The chain argument an adapter hands to the wallet service: Jumper and
Relay pass the quote's numeric chain id, Stargate passes the chain name. -/
inductive ChainRef where
  | byId (id : Option Int)
  | byName (name : String)
deriving DecidableEq

/-- One observable external call of a provider-adapter run.  The `toAddr`
field renders the Python keyword argument `to`. -/
inductive WEvent where
  | approveToken (wallet : String) (chain : ChainRef)
      (tokenAddress spender : Option String) (amount : Int)
  | waitForTransaction (chain : ChainRef) (txHash : String) (timeout : Nat)
  | sendTransaction (wallet : String) (chain : ChainRef)
      (toAddr : Option String) (value : Int) (data : Option String)
  | relayNotify (requestId : Option String) (txHash : String)
deriving DecidableEq

/-- Identifies `wallet_service.send_transaction` calls. -/
def isSendEvent : WEvent → Bool
  | .sendTransaction .. => true
  | _ => false

/-- Approval-confirmation waits: every `wait_for_transaction` the adapters
issue with the 180-second approval timeout (bridge-confirmation waits use
300 seconds). -/
def isApprovalWaitEvent : WEvent → Bool
  | .waitForTransaction _ _ t => t == 180
  | _ => false

/-- Index of the first event satisfying `p`, if any. -/
def firstIdx (p : WEvent → Bool) : List WEvent → Option Nat
  | [] => none
  | e :: l => if p e then some 0 else (firstIdx p l).map (· + 1)

/-! ## Jumper adapter (`jumper_bridge.py`) -/

/-- The fields of `quote["transactionRequest"]` read by the adapter
(`toAddr` renders the JSON key `to`). -/
structure JumperTransactionRequest where
  toAddr : Option String := none
  data : Option String := none
  value : Option String := none
  gasLimit : Option String := none
  gasPrice : Option String := none
deriving DecidableEq

/-- The fields of `quote["approvalData"]` read by the adapter. -/
structure JumperApprovalData where
  tokenAddress : Option String := none
  spenderAddress : Option String := none
  amount : Option String := none
deriving DecidableEq

/-- The fields of a Jumper quote read by `execute_bridge`.
`approvalData = none` models the key being absent or falsy
(`"approvalData" in quote and quote["approvalData"]`);
`fromChainId` is `quote["action"]["fromChainId"]`. -/
structure JumperQuote where
  transactionRequest : Option JumperTransactionRequest := none
  approvalData : Option JumperApprovalData := none
  fromChainId : Option Int := none
  tool : Option String := none
deriving DecidableEq

/-- The dict built by `JumperBridgeService.prepare_transaction_data`
(`toAddr` renders the key `to`). -/
structure JumperTxData where
  toAddr : Option String
  data : Option String
  value : String
  gasLimit : String
  gasPrice : String
  chainId : Option Int
deriving DecidableEq

/-- Embeds `JumperBridgeService.prepare_transaction_data`: fails when the quote is
falsy or has no `transactionRequest`. -/
def JumperBridgeService.prepare_transaction_data (quote : Option JumperQuote) :
    Option JumperTxData :=
  match quote with
  | none => none
  | some q =>
    match q.transactionRequest with
    | none => none
    | some tr =>
      some { toAddr := tr.toAddr, data := tr.data, value := tr.value.getD "0",
             gasLimit := tr.gasLimit.getD "0", gasPrice := tr.gasPrice.getD "0",
             chainId := q.fromChainId }

/-- Responses of the external calls one Jumper `execute_bridge` run makes.
`none` models a falsy Python return or a raised-and-caught exception. -/
structure JumperEnv where
  quote : Option JumperQuote
  approveHash : Option String
  approveWait : Bool
  sendHash : Option String
  sendWait : Bool

/-- The success record returned by `JumperBridgeService.execute_bridge`
(the `timestamp` field, `datetime.now().isoformat()`, is not modelled). -/
structure JumperResult where
  txHash : String
  bridgeType : Option String
  fromChain : String
  toChain : String
  fromToken : String
  toToken : String
  amount : String
  status : String
deriving DecidableEq

/-- The tail of a Jumper run after the (optional) approval block:
decode `tx_data["value"]`, `send_transaction`, `wait_for_transaction`
with the 300-second timeout, then build the result record. -/
def jumperSubmitPhase (env : JumperEnv) (wallet_address from_chain to_chain
    from_token to_token amount : String) (q : JumperQuote) (txd : JumperTxData) :
    Option JumperResult × List WEvent :=
  match parseTxValue txd.value with
  | none => (none, [])
  | some v =>
    let evSend := WEvent.sendTransaction wallet_address (.byId txd.chainId)
      txd.toAddr v txd.data
    match env.sendHash with
    | none => (none, [evSend])
    | some h =>
      let evWait := WEvent.waitForTransaction (.byId txd.chainId) h 300
      if env.sendWait then
        (some { txHash := h, bridgeType := q.tool, fromChain := from_chain,
                toChain := to_chain, fromToken := from_token,
                toToken := to_token, amount := amount, status := "pending" },
         [evSend, evWait])
      else (none, [evSend, evWait])

/-- Embeds `JumperBridgeService.execute_bridge`: quote → prepare → optional
approval (amount decoded with `int(amount, 16)`, confirmation wait bounded
by 180 seconds) → submission → 300-second confirmation wait → record. -/
def JumperBridgeService.execute_bridge (env : JumperEnv)
    (wallet_address from_chain to_chain from_token to_token amount : String) :
    Option JumperResult × List WEvent :=
  match env.quote with
  | none => (none, [])
  | some q =>
    match JumperBridgeService.prepare_transaction_data (some q) with
    | none => (none, [])
    | some txd =>
      match q.approvalData with
      | none =>
        jumperSubmitPhase env wallet_address from_chain to_chain from_token
          to_token amount q txd
      | some ad =>
        match pyIntBase16 (ad.amount.getD "0") with
        | none => (none, [])
        | some amt =>
          let evApprove := WEvent.approveToken wallet_address (.byId txd.chainId)
            ad.tokenAddress ad.spenderAddress amt
          match env.approveHash with
          | none => (none, [evApprove])
          | some ah =>
            let evWait := WEvent.waitForTransaction (.byId txd.chainId) ah 180
            if env.approveWait then
              let r := jumperSubmitPhase env wallet_address from_chain to_chain
                from_token to_token amount q txd
              (r.1, evApprove :: evWait :: r.2)
            else (none, [evApprove, evWait])

/-! ## Relay adapter (`relay_bridge.py`) -/

/-- The fields of `quote["tx"]` read by the adapter (`toAddr` renders the
JSON key `to`). -/
structure RelayTx where
  toAddr : Option String := none
  data : Option String := none
  value : Option String := none
  gasLimit : Option String := none
deriving DecidableEq

/-- The value `approval_data["amount"]` may arrive as a JSON string or number; the
adapter branches on `isinstance(..., str)`. -/
inductive RelayAmount where
  | str (s : String)
  | num (n : Int)
deriving DecidableEq

/-- The fields of `quote["approvalData"]` read by the adapter. -/
structure RelayApprovalData where
  spender : Option String := none
  amount : Option RelayAmount := none
deriving DecidableEq

/-- The fields of a Relay quote read by `execute_bridge`;
`approvalData = none` models the key being absent or falsy. -/
structure RelayQuote where
  tx : Option RelayTx := none
  fromChainId : Option Int := none
  requestId : Option String := none
  approvalData : Option RelayApprovalData := none
deriving DecidableEq

/-- The dict built by `RelayBridgeService.prepare_transaction_data`. -/
structure RelayTxData where
  toAddr : Option String
  data : Option String
  value : String
  gasLimit : String
  chainId : Option Int
  requestId : Option String
deriving DecidableEq

/-- Embeds `RelayBridgeService.prepare_transaction_data`: fails when the quote is
falsy or has no `tx`. -/
def RelayBridgeService.prepare_transaction_data (quote : Option RelayQuote) :
    Option RelayTxData :=
  match quote with
  | none => none
  | some q =>
    match q.tx with
    | none => none
    | some tx =>
      some { toAddr := tx.toAddr, data := tx.data, value := tx.value.getD "0",
             gasLimit := tx.gasLimit.getD "0", chainId := q.fromChainId,
             requestId := q.requestId }

/-- The approval amount decoding of the Relay adapter:
`int(a.get("amount", "0"), 16) if isinstance(a.get("amount"), str)
else int(a.get("amount", "0"))`. -/
def relayApprovalAmount : Option RelayAmount → Option Int
  | some (.str s) => pyIntBase16 s
  | some (.num n) => some n
  | none => some 0

/-- Responses of the external calls one Relay `execute_bridge` run makes.
`notifyResult` is the `POST /transactions` response of
`notify_transaction`; `none` models its failure (logged as a warning
only). -/
structure RelayEnv where
  quote : Option RelayQuote
  approveHash : Option String
  approveWait : Bool
  sendHash : Option String
  notifyResult : Option Unit
  sendWait : Bool

/-- The success record returned by `RelayBridgeService.execute_bridge`
(the `timestamp` field is not modelled). -/
structure RelayResult where
  txHash : String
  bridgeType : String
  requestId : Option String
  fromChainId : String
  toChainId : String
  fromToken : String
  toToken : String
  amount : String
  status : String
deriving DecidableEq

/-- The tail of a Relay run after the (optional) approval block: decode
`tx_data["value"]`, `send_transaction`, `notify_transaction` (failure only
logged), 300-second confirmation wait, then the result record. -/
def relaySubmitPhase (env : RelayEnv) (wallet_address from_chain_id to_chain_id
    from_token_address to_token_address amount : String) (txd : RelayTxData) :
    Option RelayResult × List WEvent :=
  match parseTxValue txd.value with
  | none => (none, [])
  | some v =>
    let evSend := WEvent.sendTransaction wallet_address (.byId txd.chainId)
      txd.toAddr v txd.data
    match env.sendHash with
    | none => (none, [evSend])
    | some h =>
      let evNotify := WEvent.relayNotify txd.requestId h
      let evWait := WEvent.waitForTransaction (.byId txd.chainId) h 300
      if env.sendWait then
        (some { txHash := h, bridgeType := "relay", requestId := txd.requestId,
                fromChainId := from_chain_id, toChainId := to_chain_id,
                fromToken := from_token_address, toToken := to_token_address,
                amount := amount, status := "pending" },
         [evSend, evNotify, evWait])
      else (none, [evSend, evNotify, evWait])

/-- Embeds `RelayBridgeService.execute_bridge`: quote → prepare → optional
approval (spender and amount from the quote, 180-second confirmation wait)
→ submission → Relay notification → 300-second confirmation wait →
record. -/
def RelayBridgeService.execute_bridge (env : RelayEnv)
    (wallet_address from_chain_id to_chain_id from_token_address
     to_token_address amount : String) :
    Option RelayResult × List WEvent :=
  match env.quote with
  | none => (none, [])
  | some q =>
    match RelayBridgeService.prepare_transaction_data (some q) with
    | none => (none, [])
    | some txd =>
      match q.approvalData with
      | none =>
        relaySubmitPhase env wallet_address from_chain_id to_chain_id
          from_token_address to_token_address amount txd
      | some ad =>
        match relayApprovalAmount ad.amount with
        | none => (none, [])
        | some amt =>
          let evApprove := WEvent.approveToken wallet_address (.byId txd.chainId)
            (some from_token_address) ad.spender amt
          match env.approveHash with
          | none => (none, [evApprove])
          | some ah =>
            let evWait := WEvent.waitForTransaction (.byId txd.chainId) ah 180
            if env.approveWait then
              let r := relaySubmitPhase env wallet_address from_chain_id
                to_chain_id from_token_address to_token_address amount txd
              (r.1, evApprove :: evWait :: r.2)
            else (none, [evApprove, evWait])

/-! ## Stargate adapter (`stargate_bridge.py`) -/

/-- The arguments of the Stargate `swap` call assembled by
`prepare_swap_params` (the recipient byte-encoding `Web3.to_bytes` is kept
as the hex string). -/
structure StargateSwapParams where
  dstChainId : Nat
  srcPoolId : Nat
  dstPoolId : Nat
  refundAddress : String
  amount : Int
  minAmount : Int
  toAddressBytes : String
deriving DecidableEq

/-- Embeds `StargateBridgeService.prepare_swap_params`: chain-id and pool-id
lookups in the static tables; any miss returns `None`. -/
def StargateBridgeService.prepare_swap_params (from_chain to_chain
    token_symbol : String) (amount min_amount : Int)
    (recipient_address : String) : Option StargateSwapParams :=
  match List.lookup to_chain STARGATE_CHAINS with
  | none => none
  | some dst =>
    match List.lookup token_symbol STARGATE_POOLS with
    | none => none
    | some pools =>
      match List.lookup from_chain pools, List.lookup to_chain pools with
      | some srcPool, some dstPool =>
        some { dstChainId := dst.1, srcPoolId := srcPool, dstPoolId := dstPool,
               refundAddress := recipient_address, amount := amount,
               minAmount := min_amount, toAddressBytes := recipient_address }
      | _, _ => none

/-- Responses of the external calls one Stargate `execute_bridge` run
makes.  `connectedChains` is the key set of `self.router_contracts`
(chains whose web3 connection succeeded at startup); `toWei` is
`web3.to_wei(amount, "ether")` (`none` models a raise); `encodeSwap` is
the router contract's ABI encoding of the `swap` call; `feeCall` is the
`quoteLayerZeroFee` contract call of `quote_fee`. -/
structure StargateEnv where
  connectedChains : List String
  toWei : String → Option Int
  encodeSwap : StargateSwapParams → String
  feeCall : Option Int
  approveHash : Option String
  approveWait : Bool
  sendHash : Option String
  sendWait : Bool

/-- Embeds `StargateBridgeService.quote_fee`: chain and pool checks, then the
`quoteLayerZeroFee` contract call. -/
def StargateBridgeService.quote_fee (env : StargateEnv)
    (from_chain to_chain token_symbol _refund_address : String) : Option Int :=
  if ¬ from_chain ∈ env.connectedChains then none
  else
    match List.lookup to_chain STARGATE_CHAINS with
    | none => none
    | some _ =>
      match List.lookup token_symbol STARGATE_POOLS with
      | none => none
      | some pools =>
        match List.lookup from_chain pools, List.lookup to_chain pools with
        | some _, some _ => env.feeCall
        | _, _ => none

/-- The success record returned by `StargateBridgeService.execute_bridge`
(the `timestamp` field is not modelled). -/
structure StargateResult where
  txHash : String
  bridgeType : String
  fromChain : String
  toChain : String
  fromToken : String
  toToken : String
  amount : String
  status : String
deriving DecidableEq

/-- The tail of a Stargate run after the (optional) approval block:
swap params, fee quote, ABI encoding, `send_transaction` (value = fee, or
fee + amount for native ETH), 300-second confirmation wait, record. -/
def stargateSubmitPhase (env : StargateEnv) (wallet_address from_chain to_chain
    token_symbol amount : String) (amount_wei min_amount_wei : Int) :
    Option StargateResult × List WEvent :=
  match StargateBridgeService.prepare_swap_params from_chain to_chain
      token_symbol amount_wei min_amount_wei wallet_address with
  | none => (none, [])
  | some swap_params =>
    match StargateBridgeService.quote_fee env from_chain to_chain token_symbol
        wallet_address with
    | none => (none, [])
    | some fee =>
      match List.lookup from_chain STARGATE_CHAINS with
      | none => (none, [])
      | some chain_data =>
        let router_address := chain_data.2
        let tx_data := env.encodeSwap swap_params
        let tx_value := if token_symbol != "ETH" then fee else fee + amount_wei
        let evSend := WEvent.sendTransaction wallet_address (.byName from_chain)
          (some router_address) tx_value (some tx_data)
        match env.sendHash with
        | none => (none, [evSend])
        | some h =>
          let evWait := WEvent.waitForTransaction (.byName from_chain) h 300
          if env.sendWait then
            (some { txHash := h, bridgeType := "stargate",
                    fromChain := from_chain, toChain := to_chain,
                    fromToken := token_symbol, toToken := token_symbol,
                    amount := amount, status := "pending" },
             [evSend, evWait])
          else (none, [evSend, evWait])

/-- Embeds `StargateBridgeService.execute_bridge`: connection check, amount
conversion (`to_wei` for ETH, `int(amount)` otherwise), 3 percent slippage
floor (`int(amount_wei * 0.97)`, exact here), ERC-20 approval of the
router when the token is not native ETH and a token address is given
(180-second confirmation wait), then the swap submission tail. -/
def StargateBridgeService.execute_bridge (env : StargateEnv)
    (wallet_address from_chain to_chain token_symbol amount : String)
    (token_address : Option String) :
    Option StargateResult × List WEvent :=
  if ¬ from_chain ∈ env.connectedChains then (none, [])
  else
    match (if token_symbol == "ETH" then env.toWei amount
           else pyIntBase10 amount) with
    | none => (none, [])
    | some amount_wei =>
      let min_amount_wei := 97 * amount_wei / 100
      match (if token_symbol != "ETH" then token_address else none) with
      | some ta =>
        match List.lookup from_chain STARGATE_CHAINS with
        | none => (none, [])
        | some chain_data =>
          let evApprove := WEvent.approveToken wallet_address
            (.byName from_chain) (some ta) (some chain_data.2) amount_wei
          match env.approveHash with
          | none => (none, [evApprove])
          | some ah =>
            let evWait := WEvent.waitForTransaction (.byName from_chain) ah 180
            if env.approveWait then
              let r := stargateSubmitPhase env wallet_address from_chain
                to_chain token_symbol amount amount_wei min_amount_wei
              (r.1, evApprove :: evWait :: r.2)
            else (none, [evApprove, evWait])
      | none =>
        stargateSubmitPhase env wallet_address from_chain to_chain token_symbol
          amount amount_wei min_amount_wei

/-! ## Aggregator (`bridge_aggregator.py`, `execute_random_bridge`) -/

/-- A provider-adapter success record, wrapped by the service that
produced it. -/
inductive BridgeResult where
  | jumper (r : JumperResult)
  | stargate (r : StargateResult)
  | relay (r : RelayResult)
deriving DecidableEq

/-- The `"service"` tag `execute_random_bridge` adds to the record it
appends to `self.transaction_history`. -/
def serviceTag : BridgeResult → String
  | .jumper _ => "jumper"
  | .stargate _ => "stargate"
  | .relay _ => "relay"

/-- One history entry: the adapter's result dict merged with the
`"service"` key. -/
abbrev HistoryEntry := BridgeResult × String

/-- Responses of every external call one `execute_random_bridge` run can
make: the balance refresh (`wallet_service.update_balances`; `none` models
a falsy return) and the three adapter environments. -/
structure AggEnv where
  balances : Option (List (String × List (String × ℚ)))
  jumperEnv : JumperEnv
  stargateEnv : StargateEnv
  relayEnv : RelayEnv

/-- The random draws one `execute_random_bridge` run consumes. -/
structure AggRand where
  kChain : Nat
  kToken : Nat
  kDest : Nat
  kPct : Nat
  kService : Nat

/-- The `available_tokens` dict built in `execute_random_bridge`: every
token gets the placeholder address `"0x..."`. -/
def build_available_tokens (balances : List (String × List (String × ℚ))) :
    TokenMap :=
  balances.map (fun ct =>
    (ct.1, ct.2.map (fun tb => (tb.1, ⟨"0x...", tb.2⟩))))

/-- The service dispatch of `execute_random_bridge`
(`if service_name == "jumper": ... elif ... elif ...`): the chosen
adapter's run on the selected transfer, with `str(amount)` as the amount
argument.  The final `none` models the `NameError` raised (and caught)
when no branch binds `result`. -/
def aggServiceRun (env : AggEnv) (wallet_address from_chain to_chain
    token_symbol token_address : String) (amount : ℚ)
    (service_name : String) : Option BridgeResult :=
  if service_name == "jumper" then
    ((JumperBridgeService.execute_bridge env.jumperEnv wallet_address
      from_chain to_chain token_symbol token_symbol
      (toString amount)).1).map .jumper
  else if service_name == "stargate" then
    ((StargateBridgeService.execute_bridge env.stargateEnv
      wallet_address from_chain to_chain token_symbol
      (toString amount) (some token_address)).1).map .stargate
  else if service_name == "relay" then
    ((RelayBridgeService.execute_bridge env.relayEnv wallet_address
      from_chain to_chain token_address token_address
      (toString amount)).1).map .relay
  else none

/-- Embeds `BridgeAggregator.execute_random_bridge`: refresh balances, select a
random transfer and service, run the chosen adapter, and on a truthy
result append it (tagged with the service name) to the transaction
history.  Returns the Python return value and the updated history. -/
def execute_random_bridge (env : AggEnv) (rnd : AggRand)
    (wallet_address : String) (transaction_history : List HistoryEntry) :
    Option BridgeResult × List HistoryEntry :=
  match env.balances with
  | none => (none, transaction_history)
  | some balances =>
    if balances.isEmpty then (none, transaction_history)
    else
      let available_chains := balances.map Prod.fst
      let available_tokens := build_available_tokens balances
      match select_random_transaction wallet_address available_chains
          available_tokens rnd.kChain rnd.kToken rnd.kDest rnd.kPct with
      | .error _ => (none, transaction_history)
      | .ok (from_chain, to_chain, token_symbol, token_address, amount) =>
        let service_name := select_random_service from_chain to_chain
          token_symbol rnd.kService
        match aggServiceRun env wallet_address from_chain to_chain
            token_symbol token_address amount service_name with
        | none => (none, transaction_history)
        | some r => (some r, transaction_history ++ [(r, serviceTag r)])

deriving instance DecidableEq for Except

/-! ## Concrete inputs used by witnesses and counterexamples -/

/-- The spec's worked example: one chain holding 100 USDC, a second
eligible chain. -/
def exampleTokens100 : TokenMap :=
  [("a", [("USDC", ⟨"0xu", 100⟩)]), ("b", [("USDT", ⟨"0xt", 1⟩)])]

/-- Chain `a` holds a zero-balance token `x` before a positive-balance
token `y`; chain `b` holds a positive-balance token `z`. -/
def mixedBalanceTokens : TokenMap :=
  [("a", [("x", ⟨"0xx", 0⟩), ("y", ⟨"0xy", 5⟩)]),
   ("b", [("z", ⟨"0xz", 3⟩)])]

/-- The transfer selection as the specification words it (C4): chains are
filtered to those holding at least one positive-balance token, and the
token is drawn uniformly among the source chain's positive-balance tokens
(destination and amount as in the source). -/
def select_random_transaction_claimed (_wallet_address : String)
    (available_chains : List String) (available_tokens : TokenMap)
    (kChain kToken kDest kPct : Nat) : Except SelectError Selection :=
  let eligible := available_chains.filter (fun c =>
    match List.lookup c available_tokens with
    | some l => l.any (fun ti => decide (0 < ti.2.balance))
    | none => false)
  if eligible.isEmpty then .error .noEligibleChain
  else
    let from_chain := chooseD kChain eligible ""
    let tokens_on_chain := (List.lookup from_chain available_tokens).getD []
    let positives := tokens_on_chain.filter (fun ti => decide (0 < ti.2.balance))
    if positives.isEmpty then .error .noTokens
    else
      let token_symbol := chooseD kToken (positives.map Prod.fst) ""
      let info := (List.lookup token_symbol tokens_on_chain).getD ⟨"", 0⟩
      let other_chains := eligible.filter (fun c => c != from_chain)
      if other_chains.isEmpty then .error .noDestination
      else
        let to_chain := chooseD kDest other_chains ""
        let percentage : Nat := 10 + kPct % 81
        .ok (from_chain, to_chain, token_symbol, info.address,
          info.balance * (percentage : ℚ) / 100)

/-- A Jumper approval block whose amount string is `"ff"`. -/
def c1ApprovalDataW : JumperApprovalData :=
  { tokenAddress := some "0xtoken", spenderAddress := some "0xspender",
    amount := some "ff" }

/-- A simple Jumper transaction request. -/
def c1TxRequestW : JumperTransactionRequest :=
  { toAddr := some "0xrouter", data := some "0xcalldata",
    value := some "0" }

/-- A Jumper quote requiring an approval. -/
def c1QuoteW : JumperQuote :=
  { transactionRequest := some c1TxRequestW,
    approvalData := some c1ApprovalDataW, fromChainId := some 1,
    tool := some "hop" }

/-- A Jumper environment in which the approval hash is obtained but the
approval confirmation wait times out. -/
def c1JumperEnvW : JumperEnv :=
  { quote := some c1QuoteW, approveHash := some "0xapprovalhash",
    approveWait := false, sendHash := some "0xbridgehash", sendWait := true }

/-- A Jumper transaction request for the successful aggregator run. -/
def c2TxRequestW : JumperTransactionRequest :=
  { toAddr := some "0xto", data := some "0xdata", value := some "0" }

/-- A Jumper quote needing no approval. -/
def c2QuoteW : JumperQuote :=
  { transactionRequest := some c2TxRequestW, approvalData := none,
    fromChainId := some 1, tool := some "hop" }

/-- A Jumper environment for a fully successful no-approval run. -/
def c2JumperEnvW : JumperEnv :=
  { quote := some c2QuoteW, approveHash := none, approveWait := false,
    sendHash := some "0xhash", sendWait := true }

/-- An inert Stargate environment (not reached in the witness run). -/
def c2StargateEnvW : StargateEnv :=
  { connectedChains := [], toWei := fun _ => none, encodeSwap := fun _ => "",
    feeCall := none, approveHash := none, approveWait := false,
    sendHash := none, sendWait := false }

/-- An inert Relay environment (not reached in the witness run). -/
def c2RelayEnvW : RelayEnv :=
  { quote := none, approveHash := none, approveWait := false,
    sendHash := none, notifyResult := none, sendWait := false }

/-- An aggregator environment holding USDC on two chains with the chosen
Jumper run succeeding. -/
def c2AggEnvW : AggEnv :=
  { balances := some [("ethereum", [("USDC", 100)]),
      ("polygon", [("USDC", 50)])],
    jumperEnv := c2JumperEnvW, stargateEnv := c2StargateEnvW,
    relayEnv := c2RelayEnvW }

/-- All-zero random draws. -/
def c2RandW : AggRand :=
  { kChain := 0, kToken := 0, kDest := 0, kPct := 0, kService := 0 }

/-- The record the witness run produces. -/
def c2ResultW : BridgeResult :=
  .jumper { txHash := "0xhash", bridgeType := some "hop",
            fromChain := "ethereum", toChain := "polygon",
            fromToken := "USDC", toToken := "USDC",
            amount := toString ((100 : ℚ) * ((10 + 0 % 81 : Nat) : ℚ) / 100),
            status := "pending" }

/-- The `tx` block of the Relay witness quote. -/
def c9TxW : RelayTx :=
  { toAddr := some "0xto", data := some "0xdata", value := some "0x0a" }

/-- A Relay quote needing no approval, with a request id. -/
def c9QuoteW : RelayQuote :=
  { tx := some c9TxW, fromChainId := some 10, requestId := some "req-1",
    approvalData := none }

/-- The transaction data prepared from `c9QuoteW`. -/
def c9TxDataW : RelayTxData :=
  { toAddr := some "0xto", data := some "0xdata", value := "0x0a",
    gasLimit := "0", chainId := some 10, requestId := some "req-1" }

/-- A Relay environment whose notification call fails while the
submission succeeds and confirms. -/
def c9EnvW : RelayEnv :=
  { quote := some c9QuoteW, approveHash := none, approveWait := false,
    sendHash := some "0xrelayhash", notifyResult := none, sendWait := true }

/-- The transaction data prepared from `c1QuoteW`. -/
def c10TxDataW : JumperTxData :=
  { toAddr := some "0xrouter", data := some "0xcalldata", value := "0",
    gasLimit := "0", gasPrice := "0", chainId := some 1 }

/-! ## Helper lemmas -/

theorem chooseD_mem (k : Nat) {l : List α} (d : α) (h : l ≠ []) :
    chooseD k l d ∈ l := by
  have hlen : 0 < l.length := List.length_pos.mpr h
  have hk : k % l.length < l.length := Nat.mod_lt _ hlen
  simp only [chooseD, List.getD_eq_getElem?_getD, List.getElem?_eq_getElem hk,
    Option.getD_some]
  exact List.getElem_mem hk

/-! ## Association-list helpers -/

theorem lookup_isSome_of_mem_keys [BEq α] [LawfulBEq α] {a : α} {l : List (α × β)}
    (h : a ∈ l.map Prod.fst) : (List.lookup a l).isSome := by
  induction l with
  | nil => simp at h
  | cons p l ih =>
    simp only [List.map_cons, List.mem_cons] at h
    rcases h with h | h
    · subst h
      simp [List.lookup]
    · by_cases hb : a == p.1
      · simp [List.lookup, hb]
      · simpa [List.lookup, hb] using ih h


theorem lookup_eq_some_of_getD_not_empty {fc : String} {toks : TokenMap}
    (h : ¬ ((List.lookup fc toks).getD []).isEmpty = true) :
    ∃ l, List.lookup fc toks = some l ∧ l ≠ [] := by
  cases hl : List.lookup fc toks with
  | none => rw [hl] at h; simp at h
  | some l =>
    refine ⟨l, rfl, ?_⟩
    rw [hl] at h
    simpa [List.isEmpty_iff] using h

/-- Inversion of a successful `select_random_transaction` run: every
component equals the corresponding draw, the looked-up token exists with
positive balance, and the amount is the drawn percentage of it. -/
theorem select_ok_elim {w : String} {chains : List String} {toks : TokenMap}
    {kC kT kD kP : Nat} {fc tc sym addr : String} {amt : ℚ}
    (h : select_random_transaction w chains toks kC kT kD kP =
      Except.ok (fc, tc, sym, addr, amt)) :
    validChains chains toks ≠ [] ∧
    fc = chooseD kC (validChains chains toks) "" ∧
    ∃ l, List.lookup fc toks = some l ∧ l ≠ [] ∧
      sym = chooseD kT (l.map Prod.fst) "" ∧
      ∃ info, List.lookup sym l = some info ∧ addr = info.address ∧
        0 < info.balance ∧
        (validChains chains toks).filter (fun c => c != fc) ≠ [] ∧
        tc = chooseD kD ((validChains chains toks).filter (fun c => c != fc)) "" ∧
        amt = info.balance * ((10 + kP % 81 : Nat) : ℚ) / 100 := by
  simp only [select_random_transaction] at h
  split at h
  · exact absurd h (by simp)
  · next hv =>
    split at h
    · exact absurd h (by simp)
    · next hne =>
      split at h
      · exact absurd h (by simp)
      · next hbal =>
        split at h
        · exact absurd h (by simp)
        · next hdest =>
          simp only [Except.ok.injEq, Prod.mk.injEq] at h
          obtain ⟨h1, h2, h3, h4, h5⟩ := h
          obtain ⟨l, hl, hlne⟩ := lookup_eq_some_of_getD_not_empty hne
          rw [hl] at hbal h3 h4 h5
          simp only [Option.getD_some] at hbal h3 h4 h5
          have hvne : validChains chains toks ≠ [] := by
            simpa [List.isEmpty_iff] using hv
          cases hinfo : List.lookup (chooseD kT (l.map Prod.fst) "") l with
          | none =>
            rw [hinfo] at hbal
            simp at hbal
          | some info =>
            rw [hinfo] at hbal h4 h5
            simp only [Option.getD_some] at hbal h4 h5
            rw [h1] at hl hdest h2
            rw [h3] at hinfo
            exact ⟨hvne, h1.symm, l, hl, hlne, h3.symm, info, hinfo, h4.symm,
              lt_of_not_le hbal, by simpa [List.isEmpty_iff] using hdest,
              h2.symm, h5.symm⟩

/-- C3: on every successful selection the amount is `balance * p / 100` for
a drawn integer percentage `p ∈ [10, 90]`, hence lies in
`[balance/10, 9*balance/10]` and never exceeds the chosen token's balance;
at balance 100 both inclusive bounds are attained (amount 10 and 90). -/
theorem c3_amount_bounds :
    (∀ (w : String) (chains : List String) (toks : TokenMap)
       (kC kT kD kP : Nat) (fc tc sym addr : String) (amt : ℚ),
       select_random_transaction w chains toks kC kT kD kP =
         Except.ok (fc, tc, sym, addr, amt) →
       ∃ l info, List.lookup fc toks = some l ∧
         List.lookup sym l = some info ∧ 0 < info.balance ∧
         (∃ p : Nat, 10 ≤ p ∧ p ≤ 90 ∧
           amt = info.balance * (p : ℚ) / 100) ∧
         info.balance / 10 ≤ amt ∧ amt ≤ 9 * info.balance / 10 ∧
         amt ≤ info.balance) ∧
    select_random_transaction "w" ["a", "b"] exampleTokens100 0 0 0 0 =
      Except.ok ("a", "b", "USDC", "0xu", 10) ∧
    select_random_transaction "w" ["a", "b"] exampleTokens100 0 0 0 80 =
      Except.ok ("a", "b", "USDC", "0xu", 90) := by
  refine ⟨?_, ?_, ?_⟩
  · intro w chains toks kC kT kD kP fc tc sym addr amt h
    obtain ⟨-, -, l, hl, -, -, info, hinfo, -, hb, -, -, hamt⟩ :=
      select_ok_elim h
    refine ⟨l, info, hl, hinfo, hb, ⟨10 + kP % 81, Nat.le_add_right 10 _, ?_, hamt⟩,
      ?_, ?_, ?_⟩
    · have : kP % 81 < 81 := Nat.mod_lt _ (by norm_num)
      omega
    · rw [hamt]
      have hp : (10 : ℚ) ≤ ((10 + kP % 81 : Nat) : ℚ) := by
        exact_mod_cast Nat.le_add_right 10 (kP % 81)
      rw [div_le_div_iff₀ (by norm_num) (by norm_num)]
      nlinarith
    · rw [hamt]
      have hp : ((10 + kP % 81 : Nat) : ℚ) ≤ 90 := by
        have : kP % 81 < 81 := Nat.mod_lt _ (by norm_num)
        exact_mod_cast by omega
      rw [div_le_div_iff₀ (by norm_num) (by norm_num)]
      nlinarith
    · rw [hamt]
      have hp : ((10 + kP % 81 : Nat) : ℚ) ≤ 90 := by
        have : kP % 81 < 81 := Nat.mod_lt _ (by norm_num)
        exact_mod_cast by omega
      rw [div_le_iff₀ (by norm_num)]
      nlinarith
  · have h1 : select_random_transaction "w" ["a", "b"] exampleTokens100 0 0 0 0 =
        Except.ok ("a", "b", "USDC", "0xu",
          (100 : ℚ) * ((10 + 0 % 81 : Nat) : ℚ) / 100) := rfl
    have h2 : (100 : ℚ) * ((10 + 0 % 81 : Nat) : ℚ) / 100 = 10 := by norm_num
    rw [h2] at h1
    exact h1
  · have h1 : select_random_transaction "w" ["a", "b"] exampleTokens100 0 0 0 80 =
        Except.ok ("a", "b", "USDC", "0xu",
          (100 : ℚ) * ((10 + 80 % 81 : Nat) : ℚ) / 100) := rfl
    have h2 : (100 : ℚ) * ((10 + 80 % 81 : Nat) : ℚ) / 100 = 90 := by norm_num
    rw [h2] at h1
    exact h1

/-- Witness for C3: the worked 100-USDC example, amount written as the
drawn expression `100 * (10 + 0 % 81) / 100`. -/
theorem c3_witness :
    ∃ l info, List.lookup "a" exampleTokens100 = some l ∧
      List.lookup "USDC" l = some info ∧ 0 < info.balance ∧
      (∃ p : Nat, 10 ≤ p ∧ p ≤ 90 ∧
        (100 : ℚ) * ((10 + 0 % 81 : Nat) : ℚ) / 100 =
          info.balance * (p : ℚ) / 100) ∧
      info.balance / 10 ≤ (100 : ℚ) * ((10 + 0 % 81 : Nat) : ℚ) / 100 ∧
      (100 : ℚ) * ((10 + 0 % 81 : Nat) : ℚ) / 100 ≤ 9 * info.balance / 10 ∧
      (100 : ℚ) * ((10 + 0 % 81 : Nat) : ℚ) / 100 ≤ info.balance :=
  c3_amount_bounds.1 "w" ["a", "b"] exampleTokens100 0 0 0 0
    "a" "b" "USDC" "0xu" _ rfl

/-- C4 (counterexample): on chain `a` = {x: 0, y: 5}, b = {z: 3}, the
claimed positive-balance filtering and token draw would succeed with token
`y`, but the source draws among ALL held tokens, picks the zero-balance
`x` and fails. -/
theorem c4_counterexample :
    select_random_transaction "w" ["a", "b"] mixedBalanceTokens 0 0 0 0 =
      Except.error SelectError.insufficientBalance ∧
    select_random_transaction_claimed "w" ["a", "b"] mixedBalanceTokens 0 0 0 0 =
      Except.ok ("a", "b", "y", "0xy",
        (5 : ℚ) * ((10 + 0 % 81 : Nat) : ℚ) / 100) ∧
    select_random_transaction "w" ["a", "b"] mixedBalanceTokens 0 0 0 0 ≠
      select_random_transaction_claimed "w" ["a", "b"] mixedBalanceTokens 0 0 0 0 := by
  refine ⟨rfl, rfl, ?_⟩
  intro h
  exact absurd (rfl.symm.trans h) (by decide)

/-- C4 (amended): the filter keeps exactly the chains with a nonempty
token dict regardless of balances; if none remains the run fails with the
no-eligible-chain error; the token is drawn uniformly among ALL held
tokens of the source chain, succeeding only when the drawn token's balance
is positive and failing with the insufficient-balance error otherwise. -/
theorem c4_filter_and_token_draw :
    (∀ (chains : List String) (toks : TokenMap) (c : String),
       c ∈ validChains chains toks ↔
         c ∈ chains ∧ ∃ l, List.lookup c toks = some l ∧ l ≠ []) ∧
    (∀ (w : String) (chains : List String) (toks : TokenMap)
       (kC kT kD kP : Nat), validChains chains toks = [] →
       select_random_transaction w chains toks kC kT kD kP =
         Except.error SelectError.noEligibleChain) ∧
    (∀ (w : String) (chains : List String) (toks : TokenMap)
       (kC kT kD kP : Nat) (fc tc sym addr : String) (amt : ℚ),
       select_random_transaction w chains toks kC kT kD kP =
         Except.ok (fc, tc, sym, addr, amt) →
       ∃ l, List.lookup fc toks = some l ∧
         sym = chooseD kT (l.map Prod.fst) "" ∧
         ∃ info, List.lookup sym l = some info ∧ 0 < info.balance) ∧
    (∀ (w : String) (chains : List String) (toks : TokenMap)
       (kC kT kD kP : Nat) (l : List (String × TokenInfo)) (info : TokenInfo),
       validChains chains toks ≠ [] →
       List.lookup (chooseD kC (validChains chains toks) "") toks = some l →
       List.lookup (chooseD kT (l.map Prod.fst) "") l = some info →
       info.balance ≤ 0 →
       select_random_transaction w chains toks kC kT kD kP =
         Except.error SelectError.insufficientBalance) := by
  refine ⟨?_, ?_, ?_, ?_⟩
  · intro chains toks c
    simp only [validChains, List.mem_filter, and_congr_right_iff]
    intro _
    cases hl : List.lookup c toks with
    | none => simp
    | some l => simp [List.isEmpty_iff]
  · intro w chains toks kC kT kD kP h
    simp [select_random_transaction, h]
  · intro w chains toks kC kT kD kP fc tc sym addr amt h
    obtain ⟨-, -, l, hl, -, hsym, info, hinfo, -, hb, -⟩ := select_ok_elim h
    exact ⟨l, hl, hsym, info, hinfo, hb⟩
  · intro w chains toks kC kT kD kP l info hv hl hinfo hb
    have hvE : (validChains chains toks).isEmpty = false := by
      simpa [List.isEmpty_iff] using hv
    have hlE : l.isEmpty = false := by
      cases l with
      | nil => simp [List.lookup] at hinfo
      | cons a t => rfl
    simp [select_random_transaction, hvE, hl, hlE, hinfo, hb]

/-- Witness for C4's amended theorem: with no token dicts at all the run
fails with the no-eligible-chain error. -/
theorem c4_witness :
    select_random_transaction "w" ["a"] [] 0 0 0 0 =
      Except.error SelectError.noEligibleChain :=
  c4_filter_and_token_draw.2.1 "w" ["a"] [] 0 0 0 0 rfl

/-- C5: a successful selection never has equal source and destination (the
destination is drawn from the valid chains other than the source), and the
run fails whenever the source chain is the only valid chain. -/
theorem c5_distinct_chains :
    (∀ (w : String) (chains : List String) (toks : TokenMap)
       (kC kT kD kP : Nat) (fc tc sym addr : String) (amt : ℚ),
       select_random_transaction w chains toks kC kT kD kP =
         Except.ok (fc, tc, sym, addr, amt) →
       fc ≠ tc ∧
       tc ∈ (validChains chains toks).filter (fun c => c != fc)) ∧
    (∀ (w : String) (chains : List String) (toks : TokenMap)
       (kC kT kD kP : Nat) (c : String), validChains chains toks = [c] →
       ∀ s : Selection,
         select_random_transaction w chains toks kC kT kD kP ≠
           Except.ok s) := by
  constructor
  · intro w chains toks kC kT kD kP fc tc sym addr amt h
    obtain ⟨-, -, l, -, -, -, info, -, -, -, hone, htc, -⟩ := select_ok_elim h
    have hmem : tc ∈ (validChains chains toks).filter (fun c => c != fc) :=
      htc ▸ chooseD_mem kD "" hone
    refine ⟨?_, hmem⟩
    have := (List.mem_filter.mp hmem).2
    simp only [bne_iff_ne, ne_eq, decide_eq_true_eq] at this
    exact fun hfc => this hfc.symm
  · intro w chains toks kC kT kD kP c hvc s hok
    obtain ⟨fc, tc, sym, addr, amt⟩ := s
    obtain ⟨-, hfc, -, -, -, -, -, -, -, -, hone, -, -⟩ := select_ok_elim hok
    rw [hvc] at hfc hone
    have hfc2 : fc = c := by simpa [chooseD, Nat.mod_one] using hfc
    rw [hfc2] at hone
    simp at hone

/-- Witness for C5: the worked example selects source `a`, destination
`b`, and they differ. -/
theorem c5_witness :
    "a" ≠ "b" ∧
    "b" ∈ (validChains ["a", "b"] exampleTokens100).filter
      (fun c => c != "a") :=
  c5_distinct_chains.1 "w" ["a", "b"] exampleTokens100 0 0 0 0
    "a" "b" "USDC" "0xu" _ rfl

/-- C6: the selected service is always one of the surviving candidates;
`jumper` and `relay` are always candidates, `stargate` exactly when both
chains and the token pass the static Stargate route tables; the surviving
set is never empty, and a provider failing the route test is never
returned. -/
theorem c6_service_route_filter :
    ∀ (fc tc tok : String) (k : Nat),
      select_random_service fc tc tok k ∈ supported_services fc tc tok ∧
      "jumper" ∈ supported_services fc tc tok ∧
      "relay" ∈ supported_services fc tc tok ∧
      supported_services fc tc tok ≠ [] ∧
      ("stargate" ∈ supported_services fc tc tok ↔
        stargateRouteOk fc tc tok = true) ∧
      (stargateRouteOk fc tc tok = false →
        select_random_service fc tc tok k ≠ "stargate") := by
  intro fc tc tok k
  by_cases hr : stargateRouteOk fc tc tok
  · refine ⟨?_, ?_, ?_, ?_, ?_, ?_⟩
    · exact chooseD_mem k "" (by simp [supported_services, hr])
    · simp [supported_services, hr]
    · simp [supported_services, hr]
    · simp [supported_services, hr]
    · simp [supported_services, hr]
    · intro hf
      rw [hr] at hf
      exact absurd hf (by simp)
  · rw [Bool.not_eq_true] at hr
    refine ⟨?_, ?_, ?_, ?_, ?_, ?_⟩
    · exact chooseD_mem k "" (by simp [supported_services, hr])
    · simp [supported_services, hr]
    · simp [supported_services, hr]
    · simp [supported_services, hr]
    · simp [supported_services, hr]
    · intro _
      have hmem : select_random_service fc tc tok k ∈
          supported_services fc tc tok := chooseD_mem k "" (by
        simp [supported_services, hr])
      simp only [supported_services, hr, if_false, List.nil_append] at hmem
      rcases List.mem_cons.mp hmem with h | h
      · rw [h]; decide
      · rcases List.mem_cons.mp h with h2 | h2
        · rw [h2]; decide
        · simp at h2

/-- Witness for C6: for a chain pair outside the Stargate tables the
selected service is a member of the surviving set and is not `stargate`. -/
theorem c6_witness :
    select_random_service "foo" "bar" "USDC" 0 ∈
      supported_services "foo" "bar" "USDC" ∧
    select_random_service "foo" "bar" "USDC" 0 ≠ "stargate" :=
  ⟨(c6_service_route_filter "foo" "bar" "USDC" 0).1,
   (c6_service_route_filter "foo" "bar" "USDC" 0).2.2.2.2.2 rfl⟩

/-- Every drawn clock time is strictly inside one day. -/
theorem drawClockUs_lt_day (d : Nat × Nat × Nat) : drawClockUs d < dayUs := by
  have h1 : d.1 % 15 < 15 := Nat.mod_lt _ (by norm_num)
  have h2 : d.2.1 % 60 < 60 := Nat.mod_lt _ (by norm_num)
  have h3 : d.2.2 % 60 < 60 := Nat.mod_lt _ (by norm_num)
  simp only [drawClockUs, dayUs]
  omega

/-- C7: the generated schedule has one timestamp per draw, is sorted
non-decreasing, and every timestamp's clock components lie in the daily
window: hour in [8, 22], minute and second in [0, 59]. -/
theorem c7_schedule_shape :
    ∀ (nowUs : Nat) (draws : List (Nat × Nat × Nat)),
      (generate_random_transaction_times nowUs draws).length = draws.length ∧
      List.Sorted (· ≤ ·) (generate_random_transaction_times nowUs draws) ∧
      ∀ t ∈ generate_random_transaction_times nowUs draws,
        8 ≤ t % dayUs / hourUs ∧ t % dayUs / hourUs ≤ 22 ∧
        t % hourUs / minuteUs ≤ 59 ∧ t % minuteUs / 1000000 ≤ 59 := by
  intro nowUs draws
  refine ⟨?_, ?_, ?_⟩
  · simp [generate_random_transaction_times]
  · exact List.sorted_insertionSort _ _
  · intro t ht
    rw [generate_random_transaction_times, List.mem_insertionSort,
      List.mem_map] at ht
    obtain ⟨d, -, hd⟩ := ht
    have h1 : d.1 % 15 < 15 := Nat.mod_lt _ (by norm_num)
    have h2 : d.2.1 % 60 < 60 := Nat.mod_lt _ (by norm_num)
    have h3 : d.2.2 % 60 < 60 := Nat.mod_lt _ (by norm_num)
    rw [← hd]
    simp only [scheduleTimeUs, drawClockUs, dayUs, hourUs, minuteUs]
    split
    · omega
    · omega

/-- Witness for C7: a two-draw schedule at midnight. -/
theorem c7_witness :
    (generate_random_transaction_times 0 [(0, 0, 0), (14, 59, 59)]).length = 2 ∧
    (8 ≤ 28800000000 % dayUs / hourUs ∧ 28800000000 % dayUs / hourUs ≤ 22 ∧
     28800000000 % hourUs / minuteUs ≤ 59 ∧
     28800000000 % minuteUs / 1000000 ≤ 59) :=
  ⟨(c7_schedule_shape 0 [(0, 0, 0), (14, 59, 59)]).1,
   (c7_schedule_shape 0 [(0, 0, 0), (14, 59, 59)]).2.2 28800000000 (by decide)⟩

/-- C8: a drawn timestamp lying in the past of the generation time is
pushed exactly one day forward (same clock time on the next day) and is
then strictly in the future of the generation time. -/
theorem c8_past_pushed_to_tomorrow :
    ∀ (nowUs : Nat) (d : Nat × Nat × Nat), nowUs < dayUs →
      drawClockUs d < nowUs →
      scheduleTimeUs nowUs d = drawClockUs d + dayUs ∧
      nowUs < scheduleTimeUs nowUs d ∧
      scheduleTimeUs nowUs d % dayUs = drawClockUs d ∧
      scheduleTimeUs nowUs d / dayUs = 1 := by
  intro nowUs d hnow hpast
  have heq : scheduleTimeUs nowUs d = drawClockUs d + dayUs := by
    simp [scheduleTimeUs, hpast]
  have hlt := drawClockUs_lt_day d
  refine ⟨heq, ?_, ?_, ?_⟩
  · rw [heq]; omega
  · rw [heq, Nat.add_mod_right, Nat.mod_eq_of_lt hlt]
  · rw [heq]
    simp only [dayUs] at hlt ⊢
    omega

/-- Witness for C8: a draw at 08:00:00 with generation time later the same
morning. -/
theorem c8_witness :
    scheduleTimeUs 30000000000 (0, 0, 0) =
      drawClockUs (0, 0, 0) + dayUs ∧
    30000000000 < scheduleTimeUs 30000000000 (0, 0, 0) ∧
    scheduleTimeUs 30000000000 (0, 0, 0) % dayUs = drawClockUs (0, 0, 0) ∧
    scheduleTimeUs 30000000000 (0, 0, 0) / dayUs = 1 :=
  c8_past_pushed_to_tomorrow 30000000000 (0, 0, 0) (by decide) (by decide)

/-- The post-approval tail of a Jumper run never issues an
approval-confirmation wait. -/
theorem jumperSubmitPhase_no_approval_wait (env : JumperEnv)
    (w fc tc ft tt a : String) (q : JumperQuote) (txd : JumperTxData) :
    firstIdx isApprovalWaitEvent
      (jumperSubmitPhase env w fc tc ft tt a q txd).2 = none := by
  simp only [jumperSubmitPhase]
  split
  · rfl
  · split
    · simp [firstIdx, isApprovalWaitEvent]
    · split <;> simp [firstIdx, isApprovalWaitEvent]

/-- The post-approval tail of a Relay run never issues an
approval-confirmation wait. -/
theorem relaySubmitPhase_no_approval_wait (env : RelayEnv)
    (w fci tci fta tta a : String) (txd : RelayTxData) :
    firstIdx isApprovalWaitEvent
      (relaySubmitPhase env w fci tci fta tta a txd).2 = none := by
  simp only [relaySubmitPhase]
  split
  · rfl
  · split
    · simp [firstIdx, isApprovalWaitEvent]
    · split <;> simp [firstIdx, isApprovalWaitEvent]

/-- The post-approval tail of a Stargate run never issues an
approval-confirmation wait. -/
theorem stargateSubmitPhase_no_approval_wait (env : StargateEnv)
    (w fc tc tok a : String) (aw mw : Int) :
    firstIdx isApprovalWaitEvent
      (stargateSubmitPhase env w fc tc tok a aw mw).2 = none := by
  simp only [stargateSubmitPhase]
  split
  · rfl
  · split
    · rfl
    · split
      · rfl
      · split
        · simp [firstIdx, isApprovalWaitEvent]
        · split <;> simp [firstIdx, isApprovalWaitEvent]


/-- C1: in each provider adapter, a required approval whose hash is not
obtained or whose 180-second confirmation wait fails makes the run return
`none` with no `send_transaction` call; and whenever an approval is
required and a submission does occur, the approval wait returned `true`
and its trace event strictly precedes the first submission event. -/
theorem c1_approval_gates_submission :
    (∀ (env : JumperEnv) (w fc tc ft tt a : String) (q : JumperQuote)
       (ad : JumperApprovalData),
       env.quote = some q → q.approvalData = some ad →
       (pyIntBase16 (ad.amount.getD "0") = none ∨ env.approveHash = none ∨
         env.approveWait = false) →
       (JumperBridgeService.execute_bridge env w fc tc ft tt a).1 = none ∧
       firstIdx isSendEvent
         (JumperBridgeService.execute_bridge env w fc tc ft tt a).2 = none) ∧
    (∀ (env : JumperEnv) (w fc tc ft tt a : String) (q : JumperQuote)
       (ad : JumperApprovalData) (i : Nat),
       env.quote = some q → q.approvalData = some ad →
       firstIdx isSendEvent
         (JumperBridgeService.execute_bridge env w fc tc ft tt a).2 = some i →
       env.approveWait = true ∧
       ∃ j, firstIdx isApprovalWaitEvent
         (JumperBridgeService.execute_bridge env w fc tc ft tt a).2 = some j ∧
         j < i) ∧
    (∀ (env : StargateEnv) (w fc tc tok a ta : String),
       tok ≠ "ETH" →
       (env.approveHash = none ∨ env.approveWait = false) →
       (StargateBridgeService.execute_bridge env w fc tc tok a (some ta)).1 =
         none ∧
       firstIdx isSendEvent
         (StargateBridgeService.execute_bridge env w fc tc tok a
           (some ta)).2 = none) ∧
    (∀ (env : StargateEnv) (w fc tc tok a ta : String) (i : Nat),
       tok ≠ "ETH" →
       firstIdx isSendEvent
         (StargateBridgeService.execute_bridge env w fc tc tok a
           (some ta)).2 = some i →
       env.approveWait = true ∧
       ∃ j, firstIdx isApprovalWaitEvent
         (StargateBridgeService.execute_bridge env w fc tc tok a
           (some ta)).2 = some j ∧ j < i) ∧
    (∀ (env : RelayEnv) (w fci tci fta tta a : String) (q : RelayQuote)
       (ad : RelayApprovalData),
       env.quote = some q → q.approvalData = some ad →
       (relayApprovalAmount ad.amount = none ∨ env.approveHash = none ∨
         env.approveWait = false) →
       (RelayBridgeService.execute_bridge env w fci tci fta tta a).1 = none ∧
       firstIdx isSendEvent
         (RelayBridgeService.execute_bridge env w fci tci fta tta a).2 =
           none) ∧
    (∀ (env : RelayEnv) (w fci tci fta tta a : String) (q : RelayQuote)
       (ad : RelayApprovalData) (i : Nat),
       env.quote = some q → q.approvalData = some ad →
       firstIdx isSendEvent
         (RelayBridgeService.execute_bridge env w fci tci fta tta a).2 =
           some i →
       env.approveWait = true ∧
       ∃ j, firstIdx isApprovalWaitEvent
         (RelayBridgeService.execute_bridge env w fci tci fta tta a).2 =
           some j ∧ j < i) := by
  refine ⟨?_, ?_, ?_, ?_, ?_, ?_⟩
  · intro env w fc tc ft tt a q ad hq had hfail
    simp only [JumperBridgeService.execute_bridge, hq]
    cases hp : JumperBridgeService.prepare_transaction_data (some q) with
    | none => simp [firstIdx]
    | some txd =>
      simp only [had]
      cases hamt : pyIntBase16 (ad.amount.getD "0") with
      | none => simp [firstIdx]
      | some amt =>
        cases hah : env.approveHash with
        | none => simp [firstIdx, isSendEvent]
        | some ah =>
          rcases hfail with hparse | hhash | hwait
          · rw [hparse] at hamt; exact absurd hamt (by simp)
          · rw [hhash] at hah; exact absurd hah (by simp)
          · simp [hwait, firstIdx, isSendEvent]
  · intro env w fc tc ft tt a q ad i hq had hsend
    rw [JumperBridgeService.execute_bridge] at hsend ⊢
    simp only [hq] at hsend ⊢
    cases hp : JumperBridgeService.prepare_transaction_data (some q) with
    | none => rw [hp] at hsend; simp [firstIdx] at hsend
    | some txd =>
      rw [hp] at hsend
      simp only [had] at hsend ⊢
      cases hamt : pyIntBase16 (ad.amount.getD "0") with
      | none => rw [hamt] at hsend; simp [firstIdx] at hsend
      | some amt =>
        rw [hamt] at hsend
        cases hah : env.approveHash with
        | none => rw [hah] at hsend; simp [firstIdx, isSendEvent] at hsend
        | some ah =>
          rw [hah] at hsend
          by_cases hw : env.approveWait
          · simp only [hw, if_true] at hsend ⊢
            simp only [firstIdx, isSendEvent, isApprovalWaitEvent] at hsend ⊢
            simp only [Bool.false_eq_true, if_false, Option.map_map] at hsend
            norm_num at hsend ⊢
            obtain ⟨j0, -, hj0⟩ := hsend
            omega
          · rw [Bool.not_eq_true] at hw
            simp only [hw, Bool.false_eq_true, if_false] at hsend
            simp [firstIdx, isSendEvent] at hsend
  · intro env w fc tc tok a ta htok hfail
    have htokb : (tok == "ETH") = false := beq_eq_false_iff_ne.mpr htok
    have htokb2 : (tok != "ETH") = true := bne_iff_ne.mpr htok
    simp only [StargateBridgeService.execute_bridge, htokb, htokb2, if_true,
      if_false, Bool.false_eq_true]
    split
    · simp [firstIdx]
    · cases hwei : pyIntBase10 a with
      | none => simp [firstIdx]
      | some aw =>
        cases hcd : List.lookup fc STARGATE_CHAINS with
        | none => simp [firstIdx]
        | some cd =>
          cases hah : env.approveHash with
          | none => simp [firstIdx, isSendEvent]
          | some ah =>
            rcases hfail with hhash | hwait
            · rw [hhash] at hah; exact absurd hah (by simp)
            · simp [hwait, firstIdx, isSendEvent]
  · intro env w fc tc tok a ta i htok hsend
    have htokb : (tok == "ETH") = false := beq_eq_false_iff_ne.mpr htok
    have htokb2 : (tok != "ETH") = true := bne_iff_ne.mpr htok
    rw [StargateBridgeService.execute_bridge] at hsend ⊢
    simp only [htokb, htokb2, if_true, if_false, Bool.false_eq_true]
      at hsend ⊢
    split at hsend
    · simp [firstIdx] at hsend
    · next hconn =>
      rw [if_neg hconn]
      cases hwei : pyIntBase10 a with
      | none => rw [hwei] at hsend; simp [firstIdx] at hsend
      | some aw =>
        rw [hwei] at hsend
        cases hcd : List.lookup fc STARGATE_CHAINS with
        | none => rw [hcd] at hsend; simp [firstIdx] at hsend
        | some cd =>
          rw [hcd] at hsend
          cases hah : env.approveHash with
          | none => rw [hah] at hsend; simp [firstIdx, isSendEvent] at hsend
          | some ah =>
            rw [hah] at hsend
            by_cases hw : env.approveWait
            · simp only [hw, if_true] at hsend ⊢
              simp only [firstIdx, isSendEvent, isApprovalWaitEvent]
                at hsend ⊢
              simp only [Bool.false_eq_true, if_false, Option.map_map]
                at hsend
              norm_num at hsend ⊢
              obtain ⟨j0, -, hj0⟩ := hsend
              omega
            · rw [Bool.not_eq_true] at hw
              simp only [hw, Bool.false_eq_true, if_false] at hsend
              simp [firstIdx, isSendEvent] at hsend
  · intro env w fci tci fta tta a q ad hq had hfail
    simp only [RelayBridgeService.execute_bridge, hq]
    cases hp : RelayBridgeService.prepare_transaction_data (some q) with
    | none => simp [firstIdx]
    | some txd =>
      simp only [had]
      cases hamt : relayApprovalAmount ad.amount with
      | none => simp [firstIdx]
      | some amt =>
        cases hah : env.approveHash with
        | none => simp [firstIdx, isSendEvent]
        | some ah =>
          rcases hfail with hparse | hhash | hwait
          · rw [hparse] at hamt; exact absurd hamt (by simp)
          · rw [hhash] at hah; exact absurd hah (by simp)
          · simp [hwait, firstIdx, isSendEvent]
  · intro env w fci tci fta tta a q ad i hq had hsend
    rw [RelayBridgeService.execute_bridge] at hsend ⊢
    simp only [hq] at hsend ⊢
    cases hp : RelayBridgeService.prepare_transaction_data (some q) with
    | none => rw [hp] at hsend; simp [firstIdx] at hsend
    | some txd =>
      rw [hp] at hsend
      simp only [had] at hsend ⊢
      cases hamt : relayApprovalAmount ad.amount with
      | none => rw [hamt] at hsend; simp [firstIdx] at hsend
      | some amt =>
        rw [hamt] at hsend
        cases hah : env.approveHash with
        | none => rw [hah] at hsend; simp [firstIdx, isSendEvent] at hsend
        | some ah =>
          rw [hah] at hsend
          by_cases hw : env.approveWait
          · simp only [hw, if_true] at hsend ⊢
            simp only [firstIdx, isSendEvent, isApprovalWaitEvent] at hsend ⊢
            simp only [Bool.false_eq_true, if_false, Option.map_map] at hsend
            norm_num at hsend ⊢
            obtain ⟨j0, -, hj0⟩ := hsend
            omega
          · rw [Bool.not_eq_true] at hw
            simp only [hw, Bool.false_eq_true, if_false] at hsend
            simp [firstIdx, isSendEvent] at hsend

/-- C2: `execute_random_bridge` leaves the history untouched on every
failure (`none` result) and appends exactly one record, tagged with the
name of the service that produced it, at the end of the history on
success; the prior history is always a prefix of the new one. -/
theorem c2_history_append :
    ∀ (env : AggEnv) (rnd : AggRand) (w : String)
      (hist : List HistoryEntry),
      ((execute_random_bridge env rnd w hist).1 = none →
        (execute_random_bridge env rnd w hist).2 = hist) ∧
      (∀ r, (execute_random_bridge env rnd w hist).1 = some r →
        (execute_random_bridge env rnd w hist).2 =
          hist ++ [(r, serviceTag r)]) ∧
      hist <+: (execute_random_bridge env rnd w hist).2 := by
  intro env rnd w hist
  have hcases : execute_random_bridge env rnd w hist = (none, hist) ∨
      ∃ r, execute_random_bridge env rnd w hist =
        (some r, hist ++ [(r, serviceTag r)]) := by
    rw [execute_random_bridge]
    dsimp only
    split
    · exact Or.inl rfl
    · split
      · exact Or.inl rfl
      · split
        · exact Or.inl rfl
        · split
          · exact Or.inl rfl
          · exact Or.inr ⟨_, rfl⟩
  rcases hcases with h | ⟨r, h⟩
  · rw [h]
    exact ⟨fun _ => rfl, fun r0 hr0 => absurd hr0 (by simp),
      List.prefix_refl _⟩
  · rw [h]
    refine ⟨fun hr => absurd hr (by simp), ?_, ⟨[(r, serviceTag r)], rfl⟩⟩
    intro r0 hr0
    simp only [Option.some.injEq] at hr0
    rw [← hr0]

/-- The post-approval tail of a Relay run with a decodable value and a
submission hash: the Relay notification and the 300-second confirmation
wait are both in its trace, and a confirmed wait yields the success
record. -/
theorem relaySubmitPhase_spec (env : RelayEnv)
    (w fci tci fta tta a : String) (txd : RelayTxData) (v : Int) (h : String)
    (hv : parseTxValue txd.value = some v) (hsh : env.sendHash = some h) :
    WEvent.relayNotify txd.requestId h ∈
      (relaySubmitPhase env w fci tci fta tta a txd).2 ∧
    WEvent.waitForTransaction (ChainRef.byId txd.chainId) h 300 ∈
      (relaySubmitPhase env w fci tci fta tta a txd).2 ∧
    (env.sendWait = true →
      (relaySubmitPhase env w fci tci fta tta a txd).1 =
        some { txHash := h, bridgeType := "relay",
               requestId := txd.requestId, fromChainId := fci,
               toChainId := tci, fromToken := fta, toToken := tta,
               amount := a, status := "pending" }) := by
  simp only [relaySubmitPhase, hv, hsh]
  by_cases hw : env.sendWait
  · simp [hw]
  · rw [Bool.not_eq_true] at hw
    simp [hw]

/-- C9: the Relay adapter ignores the outcome of its post-submission
notification call (the run's result and trace are the same for any
notification response), and in every run that reaches a submission hash
the notification event with the quote's request id and that hash is in
the trace, the 300-second confirmation wait follows, and a confirmed wait
yields the success record. -/
theorem c9_relay_notification :
    (∀ (env : RelayEnv) (r : Option Unit) (w fci tci fta tta a : String),
       RelayBridgeService.execute_bridge { env with notifyResult := r } w
         fci tci fta tta a =
       RelayBridgeService.execute_bridge env w fci tci fta tta a) ∧
    (∀ (env : RelayEnv) (w fci tci fta tta a : String) (q : RelayQuote)
       (txd : RelayTxData) (v : Int) (h : String),
       env.quote = some q →
       RelayBridgeService.prepare_transaction_data (some q) = some txd →
       (q.approvalData = none ∨
         ∃ ad ah, q.approvalData = some ad ∧
           (∃ amt, relayApprovalAmount ad.amount = some amt) ∧
           env.approveHash = some ah ∧ env.approveWait = true) →
       parseTxValue txd.value = some v →
       env.sendHash = some h →
       WEvent.relayNotify txd.requestId h ∈
         (RelayBridgeService.execute_bridge env w fci tci fta tta a).2 ∧
       WEvent.waitForTransaction (ChainRef.byId txd.chainId) h 300 ∈
         (RelayBridgeService.execute_bridge env w fci tci fta tta a).2 ∧
       (env.sendWait = true →
         (RelayBridgeService.execute_bridge env w fci tci fta tta a).1 =
           some { txHash := h, bridgeType := "relay",
                  requestId := txd.requestId, fromChainId := fci,
                  toChainId := tci, fromToken := fta, toToken := tta,
                  amount := a, status := "pending" })) := by
  constructor
  · intro env r w fci tci fta tta a
    cases env
    rfl
  · intro env w fci tci fta tta a q txd v h hq hp happ hv hsh
    rw [RelayBridgeService.execute_bridge]
    simp only [hq, hp]
    rcases happ with hnone | ⟨ad, ah, had, ⟨amt, hamt⟩, hah, hw⟩
    · simp only [hnone]
      exact relaySubmitPhase_spec env w fci tci fta tta a txd v h hv hsh
    · simp only [had, hamt, hah, hw, if_true]
      obtain ⟨h1, h2, h3⟩ :=
        relaySubmitPhase_spec env w fci tci fta tta a txd v h hv hsh
      exact ⟨List.mem_cons_of_mem _ (List.mem_cons_of_mem _ h1),
        List.mem_cons_of_mem _ (List.mem_cons_of_mem _ h2), h3⟩

/-- C10: the Jumper adapter always decodes the quote's approval amount
with `int(amount, 16)` — base-16, big-endian, with or without a `0x`
prefix — and hands exactly that value to the signing port's approve call;
in particular the decimal-looking string `"100"` is approved as 256, not
100. -/
theorem c10_jumper_hex_amount :
    (∀ (env : JumperEnv) (w fc tc ft tt a : String) (q : JumperQuote)
       (ad : JumperApprovalData) (txd : JumperTxData) (amt : Int),
       env.quote = some q →
       JumperBridgeService.prepare_transaction_data (some q) = some txd →
       q.approvalData = some ad →
       pyIntBase16 (ad.amount.getD "0") = some amt →
       WEvent.approveToken w (ChainRef.byId txd.chainId) ad.tokenAddress
         ad.spenderAddress amt ∈
         (JumperBridgeService.execute_bridge env w fc tc ft tt a).2) ∧
    pyIntBase16 "100" = some 256 ∧
    pyIntBase16 "0x100" = some 256 ∧
    ((256 : Int) ≠ 100) := by
  refine ⟨?_, rfl, rfl, by decide⟩
  intro env w fc tc ft tt a q ad txd amt hq hp had hamt
  rw [JumperBridgeService.execute_bridge]
  simp only [hq, hp, had, hamt]
  cases hah : env.approveHash with
  | none => simp
  | some ah =>
    by_cases hw : env.approveWait
    · simp [hw]
    · rw [Bool.not_eq_true] at hw
      simp [hw]

/-- Witness for C1: with the approval wait failing, the Jumper run returns
`none` and performs no submission call. -/
theorem c1_witness :
    (JumperBridgeService.execute_bridge c1JumperEnvW "0xw" "ETH" "ARB"
      "USDC" "USDC" "50").1 = none ∧
    firstIdx isSendEvent
      (JumperBridgeService.execute_bridge c1JumperEnvW "0xw" "ETH" "ARB"
        "USDC" "USDC" "50").2 = none :=
  c1_approval_gates_submission.1 c1JumperEnvW "0xw" "ETH" "ARB" "USDC"
    "USDC" "50" c1QuoteW c1ApprovalDataW (by rfl) (by rfl)
    (Or.inr (Or.inr (by rfl)))

/-- Witness for C2: the successful run appends exactly its record, tagged
with the chosen service, to the empty history. -/
theorem c2_witness :
    (execute_random_bridge c2AggEnvW c2RandW "0xw" []).1 = some c2ResultW ∧
    (execute_random_bridge c2AggEnvW c2RandW "0xw" []).2 =
      [] ++ [(c2ResultW, serviceTag c2ResultW)] :=
  ⟨by rfl,
   (c2_history_append c2AggEnvW c2RandW "0xw" []).2.1 c2ResultW (by rfl)⟩

/-- Witness for C9: the failed notification is in the trace with the
request id and hash, the confirmation wait follows, and the run still
succeeds. -/
theorem c9_witness :
    WEvent.relayNotify c9TxDataW.requestId "0xrelayhash" ∈
      (RelayBridgeService.execute_bridge c9EnvW "0xw" "1" "10" "0xta"
        "0xtb" "7").2 ∧
    WEvent.waitForTransaction (ChainRef.byId c9TxDataW.chainId)
      "0xrelayhash" 300 ∈
      (RelayBridgeService.execute_bridge c9EnvW "0xw" "1" "10" "0xta"
        "0xtb" "7").2 ∧
    (c9EnvW.sendWait = true →
      (RelayBridgeService.execute_bridge c9EnvW "0xw" "1" "10" "0xta"
        "0xtb" "7").1 =
        some { txHash := "0xrelayhash", bridgeType := "relay",
               requestId := c9TxDataW.requestId, fromChainId := "1",
               toChainId := "10", fromToken := "0xta", toToken := "0xtb",
               amount := "7", status := "pending" }) :=
  c9_relay_notification.2 c9EnvW "0xw" "1" "10" "0xta" "0xtb" "7" c9QuoteW
    c9TxDataW 10 "0xrelayhash" (by rfl) (by rfl) (Or.inl (by rfl)) (by rfl)
    (by rfl)

/-- Witness for C10: the `"ff"` approval amount reaches the approve call
as 255, and `"100"` decodes to 256. -/
theorem c10_witness :
    WEvent.approveToken "0xw" (ChainRef.byId c10TxDataW.chainId)
      c1ApprovalDataW.tokenAddress c1ApprovalDataW.spenderAddress 255 ∈
      (JumperBridgeService.execute_bridge c1JumperEnvW "0xw" "ETH" "ARB"
        "USDC" "USDC" "50").2 ∧
    pyIntBase16 "100" = some 256 :=
  ⟨c10_jumper_hex_amount.1 c1JumperEnvW "0xw" "ETH" "ARB" "USDC" "USDC"
      "50" c1QuoteW c1ApprovalDataW c10TxDataW 255 (by rfl) (by rfl)
      (by rfl) (by rfl),
   c10_jumper_hex_amount.2.1⟩
